import Mathlib

/-!
Verification development for the multi-vendor routing and fallback engine of
the TradingAgentsWeb repository.  The definitions below are a shallow
embedding of `tradingagents/dataflows/market_utils.py` and
`tradingagents/dataflows/interface.py`: Python strings become `String`,
dictionaries become association lists in their source insertion order,
adapter behaviour is an oracle mapping a vendor and adapter name to the
outcome of one invocation, and raised exceptions become explicit error
values.  String operations are implemented structurally over `List Char` so
that every definition evaluates inside the kernel.  Arithmetic on counters
is exact (`Nat`), so the 30 percent data-quality threshold
`valid / date < 0.3` is embedded as `valid * 10 < date * 3`.
-/

namespace TAW

/-! ## Python string primitives -/

/-- Whitespace characters removed by the Python `str.strip()` method. -/
def pyIsSpace (c : Char) : Bool :=
  c == ' ' || c == '\t' || c == '\n' || c == '\r' || c == '\x0b' || c == '\x0c'

/-- Embedding of Python `s.strip()`. -/
def pyStrip (s : String) : String :=
  String.mk (((s.data.dropWhile pyIsSpace).reverse.dropWhile pyIsSpace).reverse)

/-- Embedding of Python `s.upper()` (ASCII letters, which is all the source feeds it). -/
def pyUpper (s : String) : String :=
  String.mk (s.data.map Char.toUpper)

/-- Embedding of Python `s.lower()` (ASCII letters). -/
def pyLower (s : String) : String :=
  String.mk (s.data.map Char.toLower)

/-- Does `needle` occur at the head of `hay`? -/
def leadMatch : List Char → List Char → Bool
  | [], _ => true
  | _ :: _, [] => false
  | a :: as, b :: bs => a == b && leadMatch as bs

/-- Does `needle` occur anywhere inside `hay`? -/
def charsContain : List Char → List Char → Bool
  | [], needle => needle.isEmpty
  | c :: rest, needle => leadMatch needle (c :: rest) || charsContain rest needle

/-- Embedding of the Python substring test `needle in hay`. -/
def pyIn (needle hay : String) : Bool :=
  charsContain hay.data needle.data

/-- Embedding of Python `s.startswith(pre)`. -/
def strStarts (s pre : String) : Bool :=
  leadMatch pre.data s.data

/-- Embedding of Python `s.endswith(suf)`. -/
def strEnds (s suf : String) : Bool :=
  leadMatch suf.data.reverse s.data.reverse

/-- Split a character list on a separator character; mirrors the semantics of
Python `s.split(sep)` for a one-character separator. -/
def splitOnChar (sep : Char) : List Char → List (List Char)
  | [] => [[]]
  | c :: rest =>
    let r := splitOnChar sep rest
    if c == sep then [] :: r
    else
      match r with
      | h :: t => (c :: h) :: t
      | [] => [[c]]

/-- Embedding of Python `s.split(sep)` for a one-character separator. -/
def pySplit (s : String) (sep : Char) : List String :=
  (splitOnChar sep s.data).map String.mk

/-- Replace every non-overlapping occurrence of `needle` (nonempty) by `repl`,
scanning left to right; mirrors Python `s.replace(needle, repl)`.  The fuel
argument (instantiated with the length of the scanned list, which bounds the
number of recursion steps because a nonempty `needle` always shortens the
list) makes the recursion structural so the kernel can evaluate it. -/
def charsReplaceFuel (needle repl : List Char) : Nat → List Char → List Char
  | _, [] => []
  | 0, l => l
  | fuel + 1, c :: rest =>
    if needle.isEmpty then c :: rest
    else if leadMatch needle (c :: rest) then
      repl ++ charsReplaceFuel needle repl fuel ((c :: rest).drop needle.length)
    else
      c :: charsReplaceFuel needle repl fuel rest

/-- Embedding of Python `s.replace(needle, repl)` for nonempty `needle`. -/
def pyReplace (s needle repl : String) : String :=
  String.mk (charsReplaceFuel needle.data repl.data s.data.length s.data)

/-- Embedding of Python `sep.join(parts)`. -/
def joinWith (sep : String) : List String → String
  | [] => ""
  | [x] => x
  | x :: y :: rest => x ++ sep ++ joinWith sep (y :: rest)

/-- Embedding of Python `s.zfill(width)`: left pad with zeros, keeping a sign
character in front of the padding. -/
def pyZfill (s : String) (width : Nat) : String :=
  if width ≤ s.data.length then s
  else
    let fill := List.replicate (width - s.data.length) '0'
    match s.data with
    | [] => String.mk fill
    | c :: rest =>
      if c == '+' || c == '-' then String.mk (c :: (fill ++ rest))
      else String.mk (fill ++ (c :: rest))

/-- Python truthiness of an optional string argument (`None` and the empty
string are falsy). -/
def pyTruthy : Option String → Bool
  | some s => s != ""
  | none => false

/-! ## Calendar dates

`datetime.strptime(date_part, "%Y-%m-%d")` on a string already known to have
length 10 succeeds exactly for `YYYY-MM-DD` shaped strings denoting a real
calendar date with year at least 1 (`datetime.MINYEAR`). -/

def isLeapYear (y : Nat) : Bool :=
  (y % 4 == 0 && y % 100 != 0) || (y % 400 == 0)

def daysInMonth (y m : Nat) : Nat :=
  if m == 2 then (if isLeapYear y then 29 else 28)
  else if m == 4 || m == 6 || m == 9 || m == 11 then 30
  else 31

def digitVal (c : Char) : Nat := c.toNat - 48

/-- Embedding of a successful `datetime.strptime(s, "%Y-%m-%d")` call on a
length-10 string. -/
def parsesAsDate (s : String) : Bool :=
  match s.data with
  | [y1, y2, y3, y4, h1, m1, m2, h2, d1, d2] =>
    y1.isDigit && y2.isDigit && y3.isDigit && y4.isDigit &&
    h1 == '-' && m1.isDigit && m2.isDigit && h2 == '-' && d1.isDigit && d2.isDigit &&
    (let y := ((digitVal y1 * 10 + digitVal y2) * 10 + digitVal y3) * 10 + digitVal y4
     let m := digitVal m1 * 10 + digitVal m2
     let d := digitVal d1 * 10 + digitVal d2
     y != 0 && m != 0 && decide (m ≤ 12) && d != 0 && decide (d ≤ daysInMonth y m))
  | _ => false

/-! ## Python float literal recognition

`float(value_part)` in the quality gate.  The gate only branches on whether
the call raises `ValueError`; a non-parsable but nonempty value still counts
as valid, so only `pyFloatParsable "" = false` matters to the gate outcome.
The grammar below models the CPython float literal syntax including
single-underscore digit grouping. -/

/-- Consume further digits and `_digit` groups after an initial digit. -/
def chompDigits : List Char → List Char
  | [] => []
  | c :: rest =>
    if c.isDigit then chompDigits rest
    else if c == '_' then
      match rest with
      | d :: rest2 => if d.isDigit then chompDigits rest2 else c :: rest
      | [] => [c]
    else c :: rest

/-- Consume a digit run (at least one digit); `none` when no leading digit. -/
def parseDigitRun (l : List Char) : Option (List Char) :=
  match l with
  | c :: rest => if c.isDigit then some (chompDigits rest) else none
  | [] => none

/-- Consume the mantissa part `digits [. [digits]]` or `. digits`. -/
def parseMantissa (l : List Char) : Option (List Char) :=
  match parseDigitRun l with
  | some rest =>
    match rest with
    | '.' :: rest2 =>
      match parseDigitRun rest2 with
      | some rest3 => some rest3
      | none => some rest2
    | _ => some rest
  | none =>
    match l with
    | '.' :: rest2 => parseDigitRun rest2
    | _ => none

/-- Consume an exponent `e[+-]digits`. -/
def parseExponent (l : List Char) : Option (List Char) :=
  match l with
  | c :: rest =>
    if c == 'e' || c == 'E' then
      match rest with
      | s :: r => if s == '+' || s == '-' then parseDigitRun r else parseDigitRun rest
      | [] => none
    else none
  | [] => none

/-- Does `float(s)` succeed on the (already stripped) string `s`? -/
def pyFloatParsable (s : String) : Bool :=
  let l := match s.data with
           | c :: rest => if c == '+' || c == '-' then rest else s.data
           | [] => s.data
  let low := String.mk (l.map Char.toLower)
  if low == "inf" || low == "infinity" || low == "nan" then true
  else
    match parseMantissa l with
    | none => false
    | some rest =>
      match rest with
      | [] => true
      | _ =>
        match parseExponent rest with
        | some [] => true
        | _ => false

/-! ## Market identifier (`market_utils.py`) -/

/-- `MarketIdentifier.A_STOCK_PATTERNS`: the six anchored regular expressions,
tried on the uppercased and stripped symbol. -/
def matchesAStock (u : String) : Bool :=
  (u.data.length == 6 && (strStarts u "000" || strStarts u "002" || strStarts u "003")
      && (u.data.drop 3).all Char.isDigit) ||
  (u.data.length == 6 && strStarts u "30" && (u.data.drop 2).all Char.isDigit) ||
  (u.data.length == 6 && strStarts u "60" && (u.data.drop 2).all Char.isDigit) ||
  (u.data.length == 6 && strStarts u "68" && (u.data.drop 2).all Char.isDigit) ||
  (u.data.length == 6 && strStarts u "8" && (u.data.drop 1).all Char.isDigit) ||
  (u.data.length == 6 && strStarts u "4" && (u.data.drop 1).all Char.isDigit)

/-- `MarketIdentifier.HK_STOCK_PATTERNS`. -/
def matchesHKStock (u : String) : Bool :=
  (strEnds u ".HK" &&
     ((u.data.take (u.data.length - 3)).length == 4
        || (u.data.take (u.data.length - 3)).length == 5) &&
     (u.data.take (u.data.length - 3)).all Char.isDigit) ||
  ((u.data.length == 4 || u.data.length == 5) && u.data.all Char.isDigit)

/-- `MarketIdentifier.US_STOCK_PATTERNS`. -/
def matchesUSStock (u : String) : Bool :=
  (u.data.length != 0 && decide (u.data.length ≤ 5) && u.data.all Char.isUpper) ||
  (match splitOnChar '.' u.data with
   | [p, q] => !p.isEmpty && !q.isEmpty && p.all Char.isUpper && q.all Char.isUpper
   | _ => false) ||
  (match splitOnChar '.' u.data with
   | [p, q] => !p.isEmpty && !q.isEmpty && p.all Char.isDigit && q.all Char.isUpper
   | _ => false)

/-- `MarketIdentifier.identify_market`. -/
def identify_market (symbol : String) : String :=
  let u := pyStrip (pyUpper symbol)
  if matchesAStock u then "A_STOCK"
  else if matchesHKStock u then "HK_STOCK"
  else if matchesUSStock u then "US_STOCK"
  else "UNKNOWN"

/-- `MarketIdentifier.format_symbol_for_vendor`.  The source derives the
market from the raw symbol when none is supplied, then uppercases and strips
the symbol before applying the per-vendor rules; every branch without a rule
returns that normalized symbol. -/
def format_symbol_for_vendor (symbol vendor : String) (market : Option String) : String :=
  let mkt := market.getD (identify_market symbol)
  let s := pyStrip (pyUpper symbol)
  if vendor == "akshare" then
    if mkt == "A_STOCK" then
      (if strStarts s "sz" || strStarts s "sh" then String.mk (s.data.drop 2) else s)
    else if mkt == "HK_STOCK" then pyZfill (pyReplace s ".HK" "") 5
    else if mkt == "US_STOCK" then s
    else s
  else if vendor == "baostock" then
    if mkt == "A_STOCK" then
      (if strStarts s "000" || strStarts s "002" || strStarts s "003"
          || strStarts s "30" then "sz." ++ s
       else if strStarts s "60" || strStarts s "68" then "sh." ++ s
       else s)
    else s
  else if vendor == "yfinance" || vendor == "alpha_vantage" then
    if mkt == "A_STOCK" then
      (if strStarts s "000" || strStarts s "002" || strStarts s "003"
          || strStarts s "30" then s ++ ".SZ"
       else if strStarts s "60" || strStarts s "68" then s ++ ".SS"
       else s)
    else if mkt == "HK_STOCK" then
      (if ! strEnds s ".HK" then pyZfill s 4 ++ ".HK" else s)
    else if mkt == "US_STOCK" then s
    else s
  else s

/-- `MarketIdentifier.get_supported_markets`. -/
def get_supported_markets (vendor : String) : List String :=
  if vendor == "akshare" then ["A_STOCK", "HK_STOCK", "US_STOCK"]
  else if vendor == "baostock" then ["A_STOCK"]
  else if vendor == "yfinance" then ["A_STOCK", "HK_STOCK", "US_STOCK"]
  else if vendor == "alpha_vantage" then ["US_STOCK"]
  else []

/-- `MarketIdentifier.is_market_supported`. -/
def is_market_supported (symbol vendor : String) : Bool :=
  (get_supported_markets vendor).contains (identify_market symbol)

/-- `get_market_info` in `market_utils.py`. -/
structure MarketInfo where
  symbol : String
  market : String
  market_name : String
  timezone : String
  currency : String
deriving DecidableEq, Repr

def get_market_info (symbol : String) : MarketInfo :=
  let market := identify_market symbol
  { symbol := symbol
    market := market
    market_name :=
      if market == "A_STOCK" then "中国A股"
      else if market == "HK_STOCK" then "香港股市"
      else if market == "US_STOCK" then "美国股市"
      else "未知市场"
    timezone :=
      if market == "A_STOCK" then "Asia/Shanghai"
      else if market == "HK_STOCK" then "Asia/Hong_Kong"
      else if market == "US_STOCK" then "America/New_York"
      else "UTC"
    currency :=
      if market == "A_STOCK" then "CNY"
      else if market == "HK_STOCK" then "HKD"
      else if market == "US_STOCK" then "USD"
      else "USD" }

/-! ## Quality gate (`interface.py`, `_is_indicator_result_invalid`) -/

/-- The "no data" sentinel keywords from the source. -/
def noDataKeywords : List String :=
  ["n/a", "not a trading day", "weekend", "holiday", "invalid",
   "no data", "error", "failed", "无数据", "节假日", "非交易日"]

/-- The part of a line before the first colon, `line.split(":")[0]`. -/
def lineBeforeColon (line : String) : String :=
  (pySplit line ':').headD ""

/-- The part of a line after the first colon, `":".join(line.split(":")[1:])`. -/
def lineAfterColon (line : String) : String :=
  joinWith ":" (pySplit line ':').tail

/-- One loop iteration of `_is_indicator_result_invalid`: whether the (raw)
line counts as a date line, and whether it additionally counts as a valid
data line.  A line counts as a date line when it contains a colon, the
stripped text before the first colon has length 10 and parses with
`%Y-%m-%d`; it is valid when the stripped value after the first colon
contains none of the sentinel keywords (lowercased) and either parses as a
float or is nonempty. -/
def indicatorLineFlags (rawLine : String) : Bool × Bool :=
  let line := pyStrip rawLine
  if line.data.contains ':' && (pyStrip (lineBeforeColon line)).data.length == 10 then
    if parsesAsDate (pyStrip (lineBeforeColon line)) then
      let value_part := pyStrip (lineAfterColon line)
      if noDataKeywords.any (fun k => pyIn k (pyLower value_part)) then (true, false)
      else if pyFloatParsable value_part then (true, true)
      else if value_part != "" then (true, true)
      else (true, false)
    else (false, false)
  else (false, false)

/-- Number of date lines counted by `_is_indicator_result_invalid`. -/
def indicator_date_lines (s : String) : Nat :=
  ((pySplit s '\n').filter (fun l => (indicatorLineFlags l).1)).length

/-- Number of valid data lines counted by `_is_indicator_result_invalid`. -/
def indicator_valid_lines (s : String) : Nat :=
  ((pySplit s '\n').filter (fun l => (indicatorLineFlags l).2)).length

/-- `_is_indicator_result_invalid`: empty input is invalid; otherwise scan the
lines, and the result is invalid when there are no date lines or when the
fraction of valid lines is below 30 percent (`valid / date < 0.3`, embedded
exactly as `valid * 10 < date * 3`). -/
def _is_indicator_result_invalid (result_content : String) : Bool :=
  if result_content == "" then true
  else
    let flags := (pySplit result_content '\n').map indicatorLineFlags
    let date_line_count := (flags.filter (fun p => p.1)).length
    let valid_data_count := (flags.filter (fun p => p.2)).length
    if date_line_count == 0 then true
    else decide (valid_data_count * 10 < date_line_count * 3)

/-! ## Capability catalog (`interface.py` module tables) -/

/-- `TOOLS_CATEGORIES`: category name, description, tool list, in source order. -/
def TOOLS_CATEGORIES : List (String × String × List String) :=
  [("core_stock_apis", "OHLCV stock price data", ["get_stock_data"]),
   ("technical_indicators", "Technical analysis indicators", ["get_indicators"]),
   ("fundamental_data", "Company fundamentals",
     ["get_fundamentals", "get_balance_sheet", "get_cashflow", "get_income_statement"]),
   ("news_data", "News (public/insiders, original/processed)",
     ["get_news", "get_global_news", "get_insider_sentiment", "get_insider_transactions"]),
   ("realtime_data", "Real-time market data", ["get_realtime_data"]),
   ("dividend_data", "Dividend and corporate actions", ["get_dividend_data"])]

/-- `VENDOR_LIST`. -/
def VENDOR_LIST : List String :=
  ["local", "yfinance", "akshare", "baostock", "alpha_vantage", "openai", "google"]

/-- A vendor implementation: a single adapter callable or a list of adapter
callables (sub-sources run in sequence).  Adapters are identified by the
function names they carry in the source; lambda adapters are named after the
function they wrap. -/
inductive VendorImpl where
  | single (adapter : String)
  | multi (adapters : List String)
deriving DecidableEq, Repr

/-- The adapter names invoked for an implementation. -/
def implAdapters : VendorImpl → List String
  | VendorImpl.single n => [n]
  | VendorImpl.multi ns => ns

/-- `VENDOR_METHODS`: method name to vendor-to-implementation table, in exact
source (dict insertion) order. -/
def VENDOR_METHODS : List (String × List (String × VendorImpl)) :=
  [("get_stock_data",
    [("alpha_vantage", VendorImpl.single "get_alpha_vantage_stock"),
     ("yfinance", VendorImpl.single "get_YFin_data_online"),
     ("akshare", VendorImpl.single "get_akshare_stock_data"),
     ("baostock", VendorImpl.single "get_baostock_stock_data"),
     ("local", VendorImpl.single "get_YFin_data")]),
   ("get_indicators",
    [("alpha_vantage", VendorImpl.single "get_alpha_vantage_indicator"),
     ("yfinance", VendorImpl.single "get_stock_stats_indicators_window"),
     ("akshare", VendorImpl.single "get_akshare_indicators"),
     ("local", VendorImpl.single "get_stock_stats_indicators_window")]),
   ("get_fundamentals",
    [("alpha_vantage", VendorImpl.single "get_alpha_vantage_fundamentals"),
     ("akshare", VendorImpl.single "get_akshare_company_info"),
     ("baostock", VendorImpl.single "get_baostock_fundamentals"),
     ("openai", VendorImpl.single "get_fundamentals_openai")]),
   ("get_balance_sheet",
    [("alpha_vantage", VendorImpl.single "get_alpha_vantage_balance_sheet"),
     ("yfinance", VendorImpl.single "get_yfinance_balance_sheet"),
     ("akshare", VendorImpl.single "akshare_balance_sheet_lambda"),
     ("baostock", VendorImpl.single "baostock_balance_sheet_lambda"),
     ("local", VendorImpl.single "get_simfin_balance_sheet")]),
   ("get_cashflow",
    [("alpha_vantage", VendorImpl.single "get_alpha_vantage_cashflow"),
     ("yfinance", VendorImpl.single "get_yfinance_cashflow"),
     ("akshare", VendorImpl.single "akshare_cashflow_lambda"),
     ("baostock", VendorImpl.single "baostock_cashflow_lambda"),
     ("local", VendorImpl.single "get_simfin_cashflow")]),
   ("get_income_statement",
    [("alpha_vantage", VendorImpl.single "get_alpha_vantage_income_statement"),
     ("yfinance", VendorImpl.single "get_yfinance_income_statement"),
     ("akshare", VendorImpl.single "akshare_income_statement_lambda"),
     ("baostock", VendorImpl.single "baostock_income_statement_lambda"),
     ("local", VendorImpl.single "get_simfin_income_statements")]),
   ("get_news",
    [("akshare", VendorImpl.single "get_akshare_stock_news"),
     ("alpha_vantage", VendorImpl.single "get_alpha_vantage_news"),
     ("openai", VendorImpl.single "get_stock_news_openai"),
     ("google", VendorImpl.single "get_google_news"),
     ("local", VendorImpl.multi
        ["get_finnhub_news", "get_reddit_company_news", "get_google_news"])]),
   ("get_global_news",
    [("akshare", VendorImpl.single "get_akshare_global_news"),
     ("openai", VendorImpl.single "get_global_news_openai"),
     ("local", VendorImpl.single "get_reddit_global_news")]),
   ("get_insider_sentiment",
    [("akshare", VendorImpl.single "get_akshare_market_sentiment"),
     ("local", VendorImpl.single "get_finnhub_company_insider_sentiment")]),
   ("get_insider_transactions",
    [("alpha_vantage", VendorImpl.single "get_alpha_vantage_insider_transactions"),
     ("yfinance", VendorImpl.single "get_yfinance_insider_transactions"),
     ("local", VendorImpl.single "get_finnhub_company_insider_transactions")]),
   ("get_realtime_data",
    [("akshare", VendorImpl.single "get_akshare_realtime_data")]),
   ("get_dividend_data",
    [("baostock", VendorImpl.single "baostock_dividend_lambda")])]

/-- Python dict lookup `d.get(k)` over an association list with distinct keys. -/
def alistLookup {α : Type} : List (String × α) → String → Option α
  | [], _ => none
  | (k0, v) :: rest, k => if k0 == k then some v else alistLookup rest k

/-- `get_category_for_method`: first category whose tool list contains the
method; the source raises `ValueError` when there is none, embedded as `none`. -/
def get_category_for_method (method : String) : Option String :=
  match TOOLS_CATEGORIES.find? (fun p => p.2.2.contains method) with
  | some p => some p.1
  | none => none

/-- The catalog-registered vendor names for a method, in catalog order
(`list(VENDOR_METHODS[method].keys())`). -/
def catalogVendors (method : String) : List String :=
  match alistLookup VENDOR_METHODS method with
  | some impls => impls.map Prod.fst
  | none => []

/-! ## Configuration and the resolver (`get_vendor`) -/

/-- One `market_vendors` entry; a missing `primary`/`fallback` key behaves
exactly like the empty string under the `dict.get(k, "")` reads. -/
structure MarketVendorConfig where
  primary : String
  fallback : String
deriving DecidableEq, Repr

/-- The three configuration layers read by the engine (the engine never
mutates them). -/
structure Config where
  market_vendors : List (String × MarketVendorConfig)
  tool_vendors : List (String × String)
  data_vendors : List (String × String)
deriving DecidableEq, Repr

/-- Which configuration layer produced the resolver result. -/
inductive CfgLayer where
  | market
  | tool
  | category
deriving DecidableEq, Repr

/-- `get_vendor`, instrumented with the layer that produced the returned
string.  Mirrors the source exactly: the market branch returns only when the
entry has a nonempty primary or fallback; otherwise control falls through to
the tool layer and then to the category layer with the "default" sentinel. -/
def get_vendor_layered (cfg : Config) (category : String) (method : Option String)
    (symbol : Option String) : String × CfgLayer :=
  let categoryResult : String × CfgLayer :=
    ((alistLookup cfg.data_vendors category).getD "default", CfgLayer.category)
  let toolResult : String × CfgLayer :=
    match method with
    | some m =>
      if m != "" then
        match alistLookup cfg.tool_vendors m with
        | some v => (v, CfgLayer.tool)
        | none => categoryResult
      else categoryResult
    | none => categoryResult
  match symbol with
  | some s =>
    if s != "" then
      match alistLookup cfg.market_vendors (get_market_info s).market with
      | some mc =>
        if mc.primary != "" && mc.fallback != "" then
          (mc.primary ++ "," ++ mc.fallback, CfgLayer.market)
        else if mc.primary != "" then (mc.primary, CfgLayer.market)
        else if mc.fallback != "" then (mc.fallback, CfgLayer.market)
        else toolResult
      | none => toolResult
    else toolResult
  | none => toolResult

/-- `get_vendor` as the source returns it (the configured vendor string). -/
def get_vendor (cfg : Config) (category : String) (method : Option String)
    (symbol : Option String) : String :=
  (get_vendor_layered cfg category method symbol).1

/-! ## Fallback executor (`route_to_vendor`) -/

/-- A Python value produced by an adapter: either a string payload or a
non-string native value, identified by its `str()` text. -/
inductive Value where
  | vstr (s : String)
  | vobj (text : String)
deriving DecidableEq, Repr

/-- Python `str()` of an adapter value. -/
def pyStr : Value → String
  | Value.vstr s => s
  | Value.vobj t => t

/-- An exception raised by an adapter, as discriminated by the source's
`except` ladder. -/
inductive PyExn where
  | rateLimitError
  | connectionError
  | connectionAbortedError
  | connectionResetError
  | timeoutError
  | otherExn (msg : String)
deriving DecidableEq, Repr

/-- The outcome of invoking one adapter. -/
inductive AdapterOutcome where
  | ok (v : Value)
  | raise (e : PyExn)
deriving DecidableEq, Repr

/-- How the executor classifies a raised exception (this affects only the
log line printed; every class continues to the next adapter). -/
inductive FailureClass where
  | rateLimit
  | network
  | other
deriving DecidableEq, Repr

/-- The network keyword list from the generic `except` branch. -/
def networkKeywords : List String :=
  ["connection", "network", "timeout", "remote", "aborted"]

/-- The `except` ladder of `route_to_vendor`: `AlphaVantageRateLimitError`,
the typed connection errors, then keyword matching on the lowercased message. -/
def classify_exception : PyExn → FailureClass
  | PyExn.rateLimitError => FailureClass.rateLimit
  | PyExn.connectionError => FailureClass.network
  | PyExn.connectionAbortedError => FailureClass.network
  | PyExn.connectionResetError => FailureClass.network
  | PyExn.timeoutError => FailureClass.network
  | PyExn.otherExn msg =>
    if networkKeywords.any (fun k => pyIn k (pyLower msg)) then FailureClass.network
    else FailureClass.other

/-- The behaviour of the adapters during one call: for each vendor name and
adapter name, what the single invocation `impl_func(*args, **kwargs)` does.
Each (vendor, adapter) pair is invoked at most once per call, so a function
of the pair is fully general. -/
def Oracle : Type := String → String → AdapterOutcome

/-- The condition raised (or returned) to the caller.  The source raises
`ValueError` for the two method-lookup failures and `RuntimeError` for
exhaustion; each message is a fixed text around the method name. -/
inductive RouteError where
  | valueErrorMethodNotFound (method : String)
  | valueErrorMethodNotSupported (method : String)
  | runtimeErrorAllFailed (method : String)
deriving DecidableEq, Repr

/-- The message text of each raised condition (the source wraps the method
name in single quote characters; the quotes are omitted here). -/
def errorText : RouteError → String
  | RouteError.valueErrorMethodNotFound m => "Method " ++ m ++ " not found in any category"
  | RouteError.valueErrorMethodNotSupported m => "Method " ++ m ++ " not supported"
  | RouteError.runtimeErrorAllFailed m => "All vendor implementations failed for method " ++ m

/-- The executor's mutable locals: accepted results, the vendor attempt
counter, the last successful vendor, and the list of adapter invocations
made so far (vendor name, adapter name, in invocation order). -/
structure ExecState where
  results : List Value
  attempts : Nat
  successfulVendor : Option String
  trace : List (String × String)
deriving DecidableEq, Repr

instance exceptDecEq {ε α : Type} [DecidableEq ε] [DecidableEq α] :
    DecidableEq (Except ε α)
  | Except.ok a, Except.ok b =>
    if h : a = b then Decidable.isTrue (congrArg Except.ok h)
    else Decidable.isFalse (fun hc => h (Except.ok.inj hc))
  | Except.ok _, Except.error _ => Decidable.isFalse (fun hc => Except.noConfusion hc)
  | Except.error _, Except.ok _ => Decidable.isFalse (fun hc => Except.noConfusion hc)
  | Except.error a, Except.error b =>
    if h : a = b then Decidable.isTrue (congrArg Except.error h)
    else Decidable.isFalse (fun hc => h (Except.error.inj hc))

/-- Everything observable about one `route_to_vendor` call: the returned
value or raised condition plus the final locals. -/
structure RouteOutput where
  outcome : Except RouteError Value
  results : List Value
  attempts : Nat
  successfulVendor : Option String
  trace : List (String × String)
deriving DecidableEq, Repr

/-- The `for vendor in all_available_vendors` loop appending each vendor not
already present (lines 311 to 313 of `interface.py`). -/
def extendVendors (base extras : List String) : List String :=
  extras.foldl (fun acc v => if acc.contains v then acc else acc ++ [v]) base

/-- `[v.strip() for v in vendor_config.split(",")]`. -/
def split_and_strip (vendor_config : String) : List String :=
  (pySplit vendor_config ',').map pyStrip

/-- The `primary_vendors` list of a call. -/
def resolvedPrimary (cfg : Config) (category method : String) (symbol : Option String) :
    List String :=
  split_and_strip (get_vendor cfg category (some method) symbol)

/-- The market-scope test of `route_to_vendor` line 304:
`symbol and get_market_info(symbol)["market"] in config["market_vendors"]`.
Note that this is pure membership: it is true even when the entry supplied
no vendor strings and the resolver fell through to another layer. -/
def marketScopedCheck (cfg : Config) (symbol : Option String) : Bool :=
  pyTruthy symbol &&
    (alistLookup cfg.market_vendors (get_market_info (symbol.getD "")).market).isSome

/-- The `fallback_vendors` plan of a call: the configured vendors alone when
the market-scope test holds, otherwise extended with every catalog vendor
for the method not already present, in catalog order. -/
def fallbackPlan (cfg : Config) (category method : String) (symbol : Option String) :
    List String :=
  if marketScopedCheck cfg symbol then resolvedPrimary cfg category method symbol
  else extendVendors (resolvedPrimary cfg category method symbol) (catalogVendors method)

/-- The adapter invocations one vendor contributes when processed: none when
the vendor is not registered for the method, otherwise one per adapter. -/
def vendorBlock (impls : List (String × VendorImpl)) (vendor : String) :
    List (String × String) :=
  match alistLookup impls vendor with
  | none => []
  | some impl => (implAdapters impl).map (fun n => (vendor, n))

/-- The stop test of lines 409 to 412: stop after the first accepted vendor
when only one primary vendor is configured or the method is single-result. -/
def stopAfterFirstSuccess (primary_vendors : List String) (method : String) : Bool :=
  primary_vendors.length == 1 || ["get_indicators", "get_stock_data"].contains method

/-- The main vendor loop of `route_to_vendor` (lines 326 to 418).  For each
vendor in the plan: skip unregistered vendors without an attempt; otherwise
invoke every adapter of the vendor, collecting returned values and swallowing
every raised exception; apply the indicator quality gate to a single result
of `get_indicators`; on acceptance record the vendor and stop if the stop
test holds. -/
def runVendors (oracle : Oracle) (method : String) (impls : List (String × VendorImpl))
    (primary_vendors : List String) : List String → ExecState → ExecState
  | [], st => st
  | vendor :: rest, st =>
    match alistLookup impls vendor with
    | none => runVendors oracle method impls primary_vendors rest st
    | some impl =>
      let names := implAdapters impl
      let st1 : ExecState :=
        { st with attempts := st.attempts + 1
                  trace := st.trace ++ names.map (fun n => (vendor, n)) }
      let vendor_results : List Value :=
        names.filterMap (fun n =>
          match oracle vendor n with
          | AdapterOutcome.ok v => some v
          | AdapterOutcome.raise _ => none)
      if vendor_results.isEmpty then
        runVendors oracle method impls primary_vendors rest st1
      else
        if method == "get_indicators" && vendor_results.length == 1 &&
            _is_indicator_result_invalid (pyStr (vendor_results.headD (Value.vstr ""))) then
          runVendors oracle method impls primary_vendors rest st1
        else
          let st2 : ExecState :=
            { st1 with results := st1.results ++ vendor_results
                       successfulVendor := some vendor }
          if stopAfterFirstSuccess primary_vendors method then st2
          else runVendors oracle method impls primary_vendors rest st2

/-- `route_to_vendor`.  The `symbol` argument is the symbol the source
extracts from `args[0]` / `kwargs["symbol"]` / `kwargs["ticker"]` (or `None`).
Category lookup failure and an unregistered method raise `ValueError` before
any adapter runs; otherwise the fallback plan is executed and the result list
is aggregated: exhaustion raises `RuntimeError`, a single accepted value is
returned unchanged, several accepted values are stringified and joined with
a newline. -/
def route_to_vendor (cfg : Config) (oracle : Oracle) (method : String)
    (symbol : Option String) : RouteOutput :=
  match get_category_for_method method with
  | none =>
    ⟨Except.error (RouteError.valueErrorMethodNotFound method), [], 0, none, []⟩
  | some category =>
    match alistLookup VENDOR_METHODS method with
    | none =>
      ⟨Except.error (RouteError.valueErrorMethodNotSupported method), [], 0, none, []⟩
    | some impls =>
      let primary := resolvedPrimary cfg category method symbol
      let plan := fallbackPlan cfg category method symbol
      let st := runVendors oracle method impls primary plan ⟨[], 0, none, []⟩
      if st.results.isEmpty then
        ⟨Except.error (RouteError.runtimeErrorAllFailed method),
          st.results, st.attempts, st.successfulVendor, st.trace⟩
      else if st.results.length == 1 then
        ⟨Except.ok (st.results.headD (Value.vstr "")),
          st.results, st.attempts, st.successfulVendor, st.trace⟩
      else
        ⟨Except.ok (Value.vstr (joinWith "\n" (st.results.map pyStr))),
          st.results, st.attempts, st.successfulVendor, st.trace⟩

/-! ## Statement-side predicates

These name the branch conditions of the resolver so the precedence theorems
can be stated; the theorems connect them to `get_vendor_layered`. -/

/-- The resolver's market layer produces a result: a truthy symbol whose
market has an entry with a nonempty primary or fallback. -/
def marketLayerHit (cfg : Config) (symbol : Option String) : Bool :=
  match symbol with
  | some s =>
    s != "" &&
      (match alistLookup cfg.market_vendors (get_market_info s).market with
       | some mc => mc.primary != "" || mc.fallback != ""
       | none => false)
  | none => false

/-- The resolver's tool layer produces a result: a truthy method present in
`tool_vendors`. -/
def toolLayerHit (cfg : Config) (method : Option String) : Bool :=
  match method with
  | some m => m != "" && (alistLookup cfg.tool_vendors m).isSome
  | none => false

/-- Primary concatenated with fallback, skipping empty parts. -/
def joinSkipEmpty (p f : String) : String :=
  if p != "" && f != "" then p ++ "," ++ f
  else if p != "" then p
  else f

/-- The vendors with an explicit rule in `format_symbol_for_vendor`. -/
def knownFormattingVendors : List String :=
  ["akshare", "baostock", "yfinance", "alpha_vantage"]

/-- The provider/market combinations for which `format_symbol_for_vendor`
has a specific formatting rule, read off its branches: akshare and
yfinance/alpha_vantage handle the three classified markets, baostock only
A-shares; every other combination (unknown vendors, the UNKNOWN market,
baostock with HK or US symbols) falls through. -/
def hasFormattingRule (vendor mkt : String) : Bool :=
  (vendor == "akshare"
    && (mkt == "A_STOCK" || mkt == "HK_STOCK" || mkt == "US_STOCK")) ||
  (vendor == "baostock" && mkt == "A_STOCK") ||
  ((vendor == "yfinance" || vendor == "alpha_vantage")
    && (mkt == "A_STOCK" || mkt == "HK_STOCK" || mkt == "US_STOCK"))

/-! ## Concrete fixtures used by the theorems -/

/-- The vendor-related part of `DEFAULT_CONFIG` in `default_config.py`. -/
def DEFAULT_CONFIG_vendors : Config :=
  { market_vendors :=
      [("A_STOCK", ⟨"akshare", "baostock,yfinance"⟩),
       ("HK_STOCK", ⟨"akshare", "yfinance"⟩),
       ("US_STOCK", ⟨"akshare", "yfinance,alpha_vantage"⟩)]
    tool_vendors :=
      [("get_stock_data", "akshare"),
       ("get_indicators", "yfinance,akshare"),
       ("get_global_news", "openai,akshare"),
       ("get_news", "akshare,openai")]
    data_vendors :=
      [("core_stock_apis", "akshare"),
       ("technical_indicators", "akshare"),
       ("fundamental_data", "akshare"),
       ("news_data", "akshare")] }

/-- A configuration whose market entry for US stocks exists but supplies no
vendor strings, while the tool layer is configured. -/
def cfgEmptyMarketEntry : Config :=
  ⟨[("US_STOCK", ⟨"", ""⟩)], [("get_stock_data", "local")], []⟩

/-- Market-scoped configuration with one configured vendor. -/
def cfgOneMarketVendor : Config :=
  ⟨[("US_STOCK", ⟨"yfinance", ""⟩)], [], []⟩

/-- Market-scoped configuration with two configured vendors. -/
def cfgTwoMarketVendors : Config :=
  ⟨[("US_STOCK", ⟨"yfinance", "akshare"⟩)], [], []⟩

/-- Market-scoped configuration whose single configured vendor supports only
US stocks, used with an A-share symbol. -/
def cfgAlphaForAShares : Config :=
  ⟨[("A_STOCK", ⟨"alpha_vantage", ""⟩)], [], []⟩

/-- Market-scoped configuration listing three vendors in order. -/
def cfgThreeMarketVendors : Config :=
  ⟨[("US_STOCK", ⟨"alpha_vantage", "yfinance,akshare"⟩)], [], []⟩

/-- Market-scoped configuration listing the three news vendors in order. -/
def cfgThreeNewsVendors : Config :=
  ⟨[("US_STOCK", ⟨"akshare,openai,google", ""⟩)], [], []⟩

/-- Tool-level configuration for the indicator fallback demonstration. -/
def cfgIndicatorTools : Config :=
  ⟨[], [("get_indicators", "yfinance,akshare")], []⟩

/-- Every adapter raises a connection error. -/
def oracleAllRaise : Oracle := fun _ _ => AdapterOutcome.raise PyExn.connectionError

/-- Every adapter returns the string "payload". -/
def oracleAllOk : Oracle := fun _ _ => AdapterOutcome.ok (Value.vstr "payload")

/-- Every adapter returns a non-string native value. -/
def oracleNative : Oracle := fun _ _ => AdapterOutcome.ok (Value.vobj "dataframe_payload")

/-- Alpha Vantage raises a connection error; every other vendor returns
"payload". -/
def oracleAlphaDown : Oracle := fun vendor _ =>
  if vendor == "alpha_vantage" then AdapterOutcome.raise PyExn.connectionError
  else AdapterOutcome.ok (Value.vstr "payload")

/-- Three news vendors return three distinct reports. -/
def oracleThreeNews : Oracle := fun vendor _ =>
  if vendor == "akshare" then AdapterOutcome.ok (Value.vstr "news one")
  else if vendor == "openai" then AdapterOutcome.ok (Value.vstr "news two")
  else if vendor == "google" then AdapterOutcome.ok (Value.vstr "news three")
  else AdapterOutcome.raise PyExn.connectionError

/-- An indicator report with ten date lines of which two carry numeric
values and eight are marked "holiday" (20 percent valid). -/
def tenLinesTwoValid : String :=
  "2024-01-01: 12.5\n2024-01-02: 13.1\n2024-01-03: holiday\n2024-01-04: holiday\n2024-01-05: holiday\n2024-01-06: holiday\n2024-01-07: holiday\n2024-01-08: holiday\n2024-01-09: holiday\n2024-01-10: holiday"

/-- An indicator report with ten date lines of which four carry numeric
values (40 percent valid). -/
def tenLinesFourValid : String :=
  "2024-01-01: 12.5\n2024-01-02: 13.1\n2024-01-03: 12.9\n2024-01-04: 13.4\n2024-01-05: holiday\n2024-01-06: holiday\n2024-01-07: holiday\n2024-01-08: holiday\n2024-01-09: holiday\n2024-01-10: holiday"

/-- yfinance returns the rejected indicator report, akshare the accepted
one; everyone else raises. -/
def oracleIndicators : Oracle := fun vendor _ =>
  if vendor == "yfinance" then AdapterOutcome.ok (Value.vstr tenLinesTwoValid)
  else if vendor == "akshare" then AdapterOutcome.ok (Value.vstr tenLinesFourValid)
  else AdapterOutcome.raise PyExn.connectionError

/-- The `VENDOR_METHODS` entry for `get_stock_data`, for instantiating
theorems whose hypotheses carry the implementation table. -/
def implsGetStockData : List (String × VendorImpl) :=
  [("alpha_vantage", VendorImpl.single "get_alpha_vantage_stock"),
   ("yfinance", VendorImpl.single "get_YFin_data_online"),
   ("akshare", VendorImpl.single "get_akshare_stock_data"),
   ("baostock", VendorImpl.single "get_baostock_stock_data"),
   ("local", VendorImpl.single "get_YFin_data")]

/-- The `VENDOR_METHODS` entry for `get_news`. -/
def implsGetNews : List (String × VendorImpl) :=
  [("akshare", VendorImpl.single "get_akshare_stock_news"),
   ("alpha_vantage", VendorImpl.single "get_alpha_vantage_news"),
   ("openai", VendorImpl.single "get_stock_news_openai"),
   ("google", VendorImpl.single "get_google_news"),
   ("local", VendorImpl.multi
      ["get_finnhub_news", "get_reddit_company_news", "get_google_news"])]

/-- The `VENDOR_METHODS` entry for `get_indicators`. -/
def implsGetIndicators : List (String × VendorImpl) :=
  [("alpha_vantage", VendorImpl.single "get_alpha_vantage_indicator"),
   ("yfinance", VendorImpl.single "get_stock_stats_indicators_window"),
   ("akshare", VendorImpl.single "get_akshare_indicators"),
   ("local", VendorImpl.single "get_stock_stats_indicators_window")]

end TAW

example : TAW.identify_market "AAPL" = "US_STOCK" := by decide
example : TAW.identify_market "600000" = "A_STOCK" := by decide
example : TAW.identify_market "0700.HK" = "HK_STOCK" := by decide
example : TAW.identify_market "0700" = "HK_STOCK" := by decide
example : TAW.identify_market "###" = "UNKNOWN" := by decide
example : TAW.identify_market "106.TTE" = "US_STOCK" := by decide
example : TAW.format_symbol_for_vendor "aapl" "unknown_vendor" none = "AAPL" := by decide
example : TAW.format_symbol_for_vendor "0700.HK" "akshare" none = "00700" := by decide
example : TAW.format_symbol_for_vendor "600000" "baostock" none = "sh.600000" := by decide
example : TAW.format_symbol_for_vendor "000001" "yfinance" none = "000001.SZ" := by decide
example : TAW.format_symbol_for_vendor "0700" "yfinance" none = "0700.HK" := by decide
example : TAW.is_market_supported "600000" "alpha_vantage" = false := by decide
example : TAW.parsesAsDate "2024-01-15" = true := by decide
example : TAW.parsesAsDate "2024-02-30" = false := by decide
example : TAW.parsesAsDate "2024-13-01" = false := by decide
example : TAW.parsesAsDate "2024-1-155" = false := by decide
example : TAW.pyFloatParsable "12.5" = true := by decide
example : TAW.pyFloatParsable "" = false := by decide
example : TAW.pyFloatParsable "holiday" = false := by decide
example : TAW.pyIn "holiday" "all holiday here" = true := by decide
example : TAW.pyZfill "0700" 5 = "00700" := by decide
example : TAW.pyReplace "0700.HK" ".HK" "" = "0700" := by decide
example : TAW.pySplit "a:b: c" ':' = ["a", "b", " c"] := by decide
example : TAW.joinWith "\n" ["a", "b", "c"] = "a\nb\nc" := by decide
example : TAW.get_category_for_method "get_stock_data" = some "core_stock_apis" := by decide
example : TAW.get_category_for_method "bogus" = none := by decide
example : TAW.catalogVendors "get_stock_data"
    = ["alpha_vantage", "yfinance", "akshare", "baostock", "local"] := by decide
example :
    TAW.get_vendor ⟨[("US_STOCK", ⟨"", ""⟩)], [("get_stock_data", "local")], []⟩
      "core_stock_apis" (some "get_stock_data") (some "AAPL") = "local" := by decide
example :
    TAW.fallbackPlan ⟨[("US_STOCK", ⟨"", ""⟩)], [("get_stock_data", "local")], []⟩
      "core_stock_apis" "get_stock_data" (some "AAPL") = ["local"] := by decide
example :
    TAW.fallbackPlan ⟨[], [("get_stock_data", "local")], []⟩
      "core_stock_apis" "get_stock_data" (some "AAPL")
      = ["local", "alpha_vantage", "yfinance", "akshare", "baostock"] := by decide
example :
    TAW._is_indicator_result_invalid
      "2024-01-01: 12.5\n2024-01-02: holiday\n2024-01-03: holiday\n2024-01-04: holiday" = true :=
  by decide
example :
    (TAW.route_to_vendor ⟨[("US_STOCK", ⟨"yfinance", ""⟩)], [], []⟩
        (fun _ _ => TAW.AdapterOutcome.ok (TAW.Value.vstr "data"))
        "get_stock_data" (some "AAPL")).outcome
      = Except.ok (TAW.Value.vstr "data") := by decide
example :
    (TAW.route_to_vendor ⟨[("US_STOCK", ⟨"yfinance", ""⟩)], [], []⟩
        (fun _ _ => TAW.AdapterOutcome.raise TAW.PyExn.connectionError)
        "get_stock_data" (some "AAPL")).outcome
      = Except.error (TAW.RouteError.runtimeErrorAllFailed "get_stock_data") := by decide
example :
    (TAW.route_to_vendor ⟨[("US_STOCK", ⟨"yfinance", ""⟩)], [], []⟩
        (fun _ _ => TAW.AdapterOutcome.raise TAW.PyExn.connectionError)
        "get_stock_data" (some "AAPL")).trace
      = [("yfinance", "get_YFin_data_online")] := by decide

namespace TAW

/-! ## Helper lemmas -/

theorem alistLookup_mem {α : Type} (l : List (String × α)) (k : String) (v : α) :
    alistLookup l k = some v → (k, v) ∈ l := by
  induction l with
  | nil => intro h; exact absurd h (by simp [alistLookup])
  | cons p rest ih =>
    intro h
    rw [show alistLookup (p :: rest) k
        = if p.1 == k then some p.2 else alistLookup rest k from rfl] at h
    by_cases hk : (p.1 == k) = true
    · rw [if_pos hk] at h
      have h1 : p.1 = k := eq_of_beq hk
      have h2 : p.2 = v := Option.some.inj h
      have hp : p = (k, v) := by
        obtain ⟨a, b⟩ := p
        simp only at h1 h2
        rw [h1, h2]
      rw [hp]
      exact List.mem_cons_self _ _
    · rw [if_neg hk] at h
      exact List.mem_cons_of_mem _ (ih h)

theorem vendor_methods_keys_nodup :
    ∀ p ∈ VENDOR_METHODS, (p.2.map Prod.fst).Nodup := by decide

theorem catalogVendors_nodup {method : String} {impls : List (String × VendorImpl)}
    (h : alistLookup VENDOR_METHODS method = some impls) :
    (catalogVendors method).Nodup := by
  have hm := alistLookup_mem _ _ _ h
  have hnd := vendor_methods_keys_nodup _ hm
  simpa [catalogVendors, h] using hnd

theorem contains_eq_decide_mem (l : List String) (a : String) :
    l.contains a = decide (a ∈ l) := by
  by_cases h : a ∈ l
  · rw [decide_eq_true h]
    exact List.elem_iff.mpr h
  · rw [decide_eq_false h, ← Bool.not_eq_true]
    intro hc
    exact h (List.elem_iff.mp hc)

theorem extendVendors_eq_append_filter :
    ∀ (extras base : List String), extras.Nodup →
      extendVendors base extras
        = base ++ extras.filter (fun v => ! base.contains v) := by
  intro extras
  induction extras with
  | nil => intro base _; simp [extendVendors]
  | cons e rest ih =>
    intro base hnd
    have he : e ∉ rest := (List.nodup_cons.mp hnd).1
    have hrest : rest.Nodup := (List.nodup_cons.mp hnd).2
    by_cases hb : e ∈ base
    · have hbc : base.contains e = true := List.elem_iff.mpr hb
      have h1 : extendVendors base (e :: rest) = extendVendors base rest := by
        simp [extendVendors, hb]
      rw [h1, ih base hrest]
      have h2 : (e :: rest).filter (fun v => ! base.contains v)
          = rest.filter (fun v => ! base.contains v) := by
        rw [List.filter_cons]
        simp [hbc, hb]
      rw [h2]
    · have hbc : base.contains e = false :=
        Bool.eq_false_iff.mpr (fun hc => hb (List.elem_iff.mp hc))
      have h1 : extendVendors base (e :: rest) = extendVendors (base ++ [e]) rest := by
        simp [extendVendors, hb]
      have hca : ∀ a ∈ rest, ((base ++ [e]).contains a) = (base.contains a) := by
        intro a ha
        have hne : a ≠ e := fun hc => he (hc ▸ ha)
        by_cases hm : a ∈ base
        · rw [contains_eq_decide_mem, contains_eq_decide_mem, decide_eq_true hm,
            decide_eq_true (List.mem_append.mpr (Or.inl hm))]
        · rw [contains_eq_decide_mem, contains_eq_decide_mem, decide_eq_false hm,
            decide_eq_false ?_]
          intro hc
          rcases List.mem_append.mp hc with h1 | h1
          · exact hm h1
          · exact hne (List.mem_singleton.mp h1)
      have h2 : rest.filter (fun v => ! (base ++ [e]).contains v)
          = rest.filter (fun v => ! base.contains v) := by
        apply List.filter_congr
        intro a ha
        rw [hca a ha]
      have h3 : (e :: rest).filter (fun v => ! base.contains v)
          = e :: rest.filter (fun v => ! base.contains v) := by
        rw [List.filter_cons]
        simp [hbc, hb]
      rw [h1, ih (base ++ [e]) hrest, h2, h3, List.append_assoc]
      rfl

/-- The adapter invocations of one call form the concatenation of the
per-vendor blocks of a prefix of the plan: vendors are processed strictly in
plan order, each contributing all of its adapters (or nothing when
unregistered), and the loop stops only by exhausting that prefix. -/
theorem runVendors_trace_shape (oracle : Oracle) (method : String)
    (impls : List (String × VendorImpl)) (primary : List String) :
    ∀ (vs : List String) (st : ExecState),
      ∃ k, k ≤ vs.length ∧
        (runVendors oracle method impls primary vs st).trace
          = st.trace ++ ((vs.take k).map (vendorBlock impls)).flatten := by
  intro vs
  induction vs with
  | nil =>
    intro st
    exact ⟨0, Nat.le_refl 0, by simp [runVendors]⟩
  | cons v rest ih =>
    intro st
    cases hl : alistLookup impls v with
    | none =>
      obtain ⟨k, hk, htr⟩ := ih st
      refine ⟨k + 1, Nat.succ_le_succ hk, ?_⟩
      have hstep : runVendors oracle method impls primary (v :: rest) st
          = runVendors oracle method impls primary rest st := by
        simp [runVendors, hl]
      rw [hstep, htr]
      simp [vendorBlock, hl, List.take_succ_cons]
    | some impl =>
      simp only [runVendors, hl]
      by_cases h1 : ((implAdapters impl).filterMap (fun n =>
          match oracle v n with
          | AdapterOutcome.ok val => some val
          | AdapterOutcome.raise _ => none)).isEmpty = true
      · rw [if_pos h1]
        obtain ⟨k, hk, htr⟩ := ih
          { st with attempts := st.attempts + 1
                    trace := st.trace ++ (implAdapters impl).map (fun n => (v, n)) }
        refine ⟨k + 1, Nat.succ_le_succ hk, ?_⟩
        rw [htr]
        simp [vendorBlock, hl, List.take_succ_cons, List.append_assoc]
      · rw [if_neg h1]
        by_cases h2 : (method == "get_indicators" &&
            ((implAdapters impl).filterMap (fun n =>
              match oracle v n with
              | AdapterOutcome.ok val => some val
              | AdapterOutcome.raise _ => none)).length == 1 &&
            _is_indicator_result_invalid (pyStr (((implAdapters impl).filterMap (fun n =>
              match oracle v n with
              | AdapterOutcome.ok val => some val
              | AdapterOutcome.raise _ => none)).headD (Value.vstr "")))) = true
        · rw [if_pos h2]
          obtain ⟨k, hk, htr⟩ := ih
            { st with attempts := st.attempts + 1
                      trace := st.trace ++ (implAdapters impl).map (fun n => (v, n)) }
          refine ⟨k + 1, Nat.succ_le_succ hk, ?_⟩
          rw [htr]
          simp [vendorBlock, hl, List.take_succ_cons, List.append_assoc]
        · rw [if_neg h2]
          by_cases h3 : stopAfterFirstSuccess primary method = true
          · rw [if_pos h3]
            refine ⟨1, Nat.succ_le_succ (Nat.zero_le _), ?_⟩
            simp [vendorBlock, hl, List.take_succ_cons]
          · rw [if_neg h3]
            obtain ⟨k, hk, htr⟩ := ih
              { st with attempts := st.attempts + 1
                        trace := (st.trace ++ (implAdapters impl).map (fun n => (v, n)))
                        results := st.results ++ ((implAdapters impl).filterMap (fun n =>
                          match oracle v n with
                          | AdapterOutcome.ok val => some val
                          | AdapterOutcome.raise _ => none))
                        successfulVendor := some v }
            refine ⟨k + 1, Nat.succ_le_succ hk, ?_⟩
            rw [htr]
            simp [vendorBlock, hl, List.take_succ_cons, List.append_assoc]

/-- Route-level corollary of `runVendors_trace_shape`. -/
theorem route_trace_shape (cfg : Config) (oracle : Oracle) (method : String)
    (symbol : Option String) (category : String) (impls : List (String × VendorImpl))
    (hcat : get_category_for_method method = some category)
    (himpl : alistLookup VENDOR_METHODS method = some impls) :
    ∃ k, k ≤ (fallbackPlan cfg category method symbol).length ∧
      (route_to_vendor cfg oracle method symbol).trace
        = (((fallbackPlan cfg category method symbol).take k).map (vendorBlock impls)).flatten := by
  obtain ⟨k, hk, htr⟩ := runVendors_trace_shape oracle method impls
    (resolvedPrimary cfg category method symbol)
    (fallbackPlan cfg category method symbol) ⟨[], 0, none, []⟩
  refine ⟨k, hk, ?_⟩
  simp only [route_to_vendor, hcat, himpl]
  split_ifs <;> simpa using htr

/-- Scenario lemma: in a three-vendor plan where every adapter of the first
vendor raises and the second vendor's single adapter returns an accepted
value, the loop (under the stop condition) records the second vendor and
never reaches the third. -/
theorem runVendors_abc (oracle : Oracle) (method : String)
    (impls : List (String × VendorImpl)) (primary : List String)
    (A B C nB : String) (implA : VendorImpl) (v : Value)
    (hA : alistLookup impls A = some implA)
    (hAfail : ∀ n ∈ implAdapters implA, ∃ e, oracle A n = AdapterOutcome.raise e)
    (hB : alistLookup impls B = some (VendorImpl.single nB))
    (hBok : oracle B nB = AdapterOutcome.ok v)
    (hgate : (method == "get_indicators" && _is_indicator_result_invalid (pyStr v)) = false)
    (hstop : stopAfterFirstSuccess primary method = true) :
    runVendors oracle method impls primary [A, B, C] ⟨[], 0, none, []⟩
      = ⟨[v], 2, some B, (implAdapters implA).map (fun n => (A, n)) ++ [(B, nB)]⟩ := by
  have hfail : (implAdapters implA).filterMap (fun n =>
      match oracle A n with
      | AdapterOutcome.ok val => some val
      | AdapterOutcome.raise _ => none) = [] := by
    rw [List.filterMap_eq_nil_iff]
    intro n hn
    obtain ⟨e, he⟩ := hAfail n hn
    rw [he]
  simp only [runVendors, hA]
  rw [hfail]
  simp only [List.isEmpty_nil, if_true]
  simp only [runVendors, hB, implAdapters]
  by_cases hmi : (method == "get_indicators") = true
  · have hinv : _is_indicator_result_invalid (pyStr v) = false := by
      rw [hmi] at hgate
      simpa using hgate
    simp [hBok, hmi, hinv, hstop]
  · have hmif : (method == "get_indicators") = false := Bool.eq_false_iff.mpr hmi
    simp [hBok, hmif, hstop]

end TAW

namespace TAW

/-! ## Claim theorems -/

/-- C10: for every method name not listed in any category of the capability
catalog, `route_to_vendor` raises `ValueError` with zero adapter invocations
and zero attempts, and that error is distinct from the terminal
`AllProvidersFailed` condition. -/
theorem C10_unknown_method_value_error (cfg : Config) (oracle : Oracle)
    (method : String) (symbol : Option String)
    (h : get_category_for_method method = none) :
    route_to_vendor cfg oracle method symbol
      = ⟨Except.error (RouteError.valueErrorMethodNotFound method), [], 0, none, []⟩ ∧
    (∀ m, RouteError.valueErrorMethodNotFound method ≠ RouteError.runtimeErrorAllFailed m) := by
  constructor
  · simp [route_to_vendor, h]
  · intro m hc
    cases hc

/-- Witness for C10 at the unknown method name "get_weather". -/
theorem C10_unknown_method_value_error_witness :
    route_to_vendor DEFAULT_CONFIG_vendors oracleAllRaise "get_weather" none
      = ⟨Except.error (RouteError.valueErrorMethodNotFound "get_weather"), [], 0, none, []⟩ ∧
    (∀ m, RouteError.valueErrorMethodNotFound "get_weather"
        ≠ RouteError.runtimeErrorAllFailed m) :=
  C10_unknown_method_value_error DEFAULT_CONFIG_vendors oracleAllRaise "get_weather" none
    (by decide)

/-- C2: for a registered method, whatever every adapter does, the only error
`route_to_vendor` can raise is the terminal all-providers-failed condition,
and it raises exactly when no value was accepted. -/
theorem C2_error_containment (cfg : Config) (oracle : Oracle) (method : String)
    (symbol : Option String) (category : String) (impls : List (String × VendorImpl))
    (hcat : get_category_for_method method = some category)
    (himpl : alistLookup VENDOR_METHODS method = some impls) :
    (∀ e, (route_to_vendor cfg oracle method symbol).outcome = Except.error e →
        e = RouteError.runtimeErrorAllFailed method) ∧
    ((route_to_vendor cfg oracle method symbol).outcome
        = Except.error (RouteError.runtimeErrorAllFailed method)
      ↔ (route_to_vendor cfg oracle method symbol).results = []) := by
  simp only [route_to_vendor, hcat, himpl]
  generalize runVendors oracle method impls (resolvedPrimary cfg category method symbol)
    (fallbackPlan cfg category method symbol) ⟨[], 0, none, []⟩ = st
  rcases hres : st.results with _ | ⟨a, rest⟩
  · simp [hres]
  · rcases rest with _ | ⟨b, rest2⟩
    · simp [hres]
    · simp [hres]

/-- Witness for C2 with every adapter raising. -/
theorem C2_error_containment_witness :
    (route_to_vendor DEFAULT_CONFIG_vendors oracleAllRaise "get_stock_data" none).outcome
        = Except.error (RouteError.runtimeErrorAllFailed "get_stock_data")
      ↔ (route_to_vendor DEFAULT_CONFIG_vendors oracleAllRaise "get_stock_data" none).results
          = [] :=
  (C2_error_containment DEFAULT_CONFIG_vendors oracleAllRaise "get_stock_data" none
    "core_stock_apis" implsGetStockData (by decide) (by decide)).2

/-- C7 counterexample: two exhausted runs that differ in their attempt count
(1 versus 2) raise the very same error value, so the terminal failure cannot
carry the number of attempts; its text is fixed by the method name alone. -/
theorem C7_counterexample_attempts_not_carried :
    (route_to_vendor cfgOneMarketVendor oracleAllRaise "get_stock_data"
        (some "AAPL")).attempts = 1 ∧
    (route_to_vendor cfgTwoMarketVendors oracleAllRaise "get_stock_data"
        (some "AAPL")).attempts = 2 ∧
    (route_to_vendor cfgOneMarketVendor oracleAllRaise "get_stock_data"
        (some "AAPL")).outcome
      = (route_to_vendor cfgTwoMarketVendors oracleAllRaise "get_stock_data"
          (some "AAPL")).outcome ∧
    (route_to_vendor cfgOneMarketVendor oracleAllRaise "get_stock_data"
        (some "AAPL")).outcome
      = Except.error (RouteError.runtimeErrorAllFailed "get_stock_data") ∧
    errorText (RouteError.runtimeErrorAllFailed "get_stock_data")
      = "All vendor implementations failed for method get_stock_data" := by decide

/-- C7 amended: the terminal failure raised on exhaustion carries the method
name (and nothing that depends on the attempt count). -/
theorem C7_amended_terminal_failure (cfg : Config) (oracle : Oracle) (method : String)
    (symbol : Option String) (category : String) (impls : List (String × VendorImpl))
    (hcat : get_category_for_method method = some category)
    (himpl : alistLookup VENDOR_METHODS method = some impls) :
    ∀ e, (route_to_vendor cfg oracle method symbol).outcome = Except.error e →
      e = RouteError.runtimeErrorAllFailed method ∧
      errorText e = "All vendor implementations failed for method " ++ method := by
  intro e he
  simp only [route_to_vendor, hcat, himpl] at he
  generalize runVendors oracle method impls (resolvedPrimary cfg category method symbol)
    (fallbackPlan cfg category method symbol) ⟨[], 0, none, []⟩ = st at he
  rcases hres : st.results with _ | ⟨a, rest⟩
  · simp only [hres] at he
    simp at he
    subst he
    exact ⟨rfl, rfl⟩
  · rcases rest with _ | ⟨b, rest2⟩
    · simp [hres] at he
    · simp [hres] at he

/-- Witness for the amended C7. -/
theorem C7_amended_terminal_failure_witness :
    RouteError.runtimeErrorAllFailed "get_stock_data"
        = RouteError.runtimeErrorAllFailed "get_stock_data" ∧
    errorText (RouteError.runtimeErrorAllFailed "get_stock_data")
      = "All vendor implementations failed for method " ++ "get_stock_data" :=
  C7_amended_terminal_failure cfgOneMarketVendor oracleAllRaise "get_stock_data"
    (some "AAPL") "core_stock_apis" implsGetStockData (by decide) (by decide)
    (RouteError.runtimeErrorAllFailed "get_stock_data") (by decide)

/-- C9: a single accepted value is returned unchanged (native values
included); several accepted values are stringified and joined with a newline
in acceptance order, as in the concrete three-news-vendor run. -/
theorem C9_single_and_aggregate (cfg : Config) (oracle : Oracle) (method : String)
    (symbol : Option String) :
    (∀ v, (route_to_vendor cfg oracle method symbol).results = [v] →
       (route_to_vendor cfg oracle method symbol).outcome = Except.ok v) ∧
    (2 ≤ (route_to_vendor cfg oracle method symbol).results.length →
       (route_to_vendor cfg oracle method symbol).outcome
         = Except.ok (Value.vstr (joinWith "\n"
             ((route_to_vendor cfg oracle method symbol).results.map pyStr)))) ∧
    (route_to_vendor cfgThreeNewsVendors oracleThreeNews "get_news" (some "AAPL")).results
       = [Value.vstr "news one", Value.vstr "news two", Value.vstr "news three"] ∧
    (route_to_vendor cfgThreeNewsVendors oracleThreeNews "get_news" (some "AAPL")).outcome
       = Except.ok (Value.vstr "news one\nnews two\nnews three") ∧
    (route_to_vendor cfgOneMarketVendor oracleNative "get_stock_data" (some "AAPL")).outcome
       = Except.ok (Value.vobj "dataframe_payload") := by
  refine ⟨?_, ?_, by decide, by decide, by decide⟩
  · intro v hv
    cases hcat : get_category_for_method method with
    | none =>
      simp only [route_to_vendor, hcat] at hv
      simp at hv
    | some category =>
      cases himpl : alistLookup VENDOR_METHODS method with
      | none =>
        simp only [route_to_vendor, hcat, himpl] at hv
        simp at hv
      | some impls =>
        simp only [route_to_vendor, hcat, himpl] at hv ⊢
        generalize runVendors oracle method impls
          (resolvedPrimary cfg category method symbol)
          (fallbackPlan cfg category method symbol) ⟨[], 0, none, []⟩ = st at hv ⊢
        rcases hres : st.results with _ | ⟨a, rest⟩
        · simp [hres] at hv
        · rcases rest with _ | ⟨b, rest2⟩
          · simp [hres] at hv ⊢
            rw [hv]
          · simp [hres] at hv
  · intro h2
    cases hcat : get_category_for_method method with
    | none =>
      simp only [route_to_vendor, hcat] at h2
      simp at h2
    | some category =>
      cases himpl : alistLookup VENDOR_METHODS method with
      | none =>
        simp only [route_to_vendor, hcat, himpl] at h2
        simp at h2
      | some impls =>
        simp only [route_to_vendor, hcat, himpl] at h2 ⊢
        generalize runVendors oracle method impls
          (resolvedPrimary cfg category method symbol)
          (fallbackPlan cfg category method symbol) ⟨[], 0, none, []⟩ = st at h2 ⊢
        rcases hres : st.results with _ | ⟨a, rest⟩
        · simp [hres] at h2
        · rcases rest with _ | ⟨b, rest2⟩
          · simp [hres] at h2
          · simp [hres]

/-- Witness for C9: the native single value is passed through unchanged. -/
theorem C9_single_and_aggregate_witness :
    (route_to_vendor cfgOneMarketVendor oracleNative "get_stock_data" (some "AAPL")).outcome
      = Except.ok (Value.vobj "dataframe_payload") :=
  (C9_single_and_aggregate cfgOneMarketVendor oracleNative "get_stock_data"
    (some "AAPL")).1 (Value.vobj "dataframe_payload") (by decide)

/-- C1 counterexample: with a market entry present but empty, the resolver
uses the tool layer, yet the plan is not extended with the catalog vendors —
the safety net tracks market-entry membership, not the layer actually used. -/
theorem C1_counterexample_empty_market_entry :
    (get_vendor_layered cfgEmptyMarketEntry "core_stock_apis" (some "get_stock_data")
        (some "AAPL")).2 = CfgLayer.tool ∧
    fallbackPlan cfgEmptyMarketEntry "core_stock_apis" "get_stock_data" (some "AAPL")
      = ["local"] ∧
    ¬ fallbackPlan cfgEmptyMarketEntry "core_stock_apis" "get_stock_data" (some "AAPL")
      = resolvedPrimary cfgEmptyMarketEntry "core_stock_apis" "get_stock_data" (some "AAPL")
        ++ (catalogVendors "get_stock_data").filter
             (fun v => ! (resolvedPrimary cfgEmptyMarketEntry "core_stock_apis"
                 "get_stock_data" (some "AAPL")).contains v) := by decide

/-- C1 (amended): the fallback plan is the configured vendors alone exactly
when the symbol's market has a `market_vendors` entry (whether or not that
entry supplied any providers); otherwise it is the configured vendors
followed by every catalog-registered provider not already present, in
catalog order. -/
theorem C1_amended_safety_net (cfg : Config) (category method : String)
    (symbol : Option String) (impls : List (String × VendorImpl))
    (himpl : alistLookup VENDOR_METHODS method = some impls) :
    (marketScopedCheck cfg symbol = true →
      fallbackPlan cfg category method symbol
        = resolvedPrimary cfg category method symbol) ∧
    (marketScopedCheck cfg symbol = false →
      fallbackPlan cfg category method symbol
        = resolvedPrimary cfg category method symbol
          ++ (catalogVendors method).filter
               (fun v => ! (resolvedPrimary cfg category method symbol).contains v)) := by
  constructor
  · intro h
    simp [fallbackPlan, h]
  · intro h
    have hne : ¬ marketScopedCheck cfg symbol = true := by simp [h]
    rw [fallbackPlan, if_neg hne]
    exact extendVendors_eq_append_filter _ _ (catalogVendors_nodup himpl)

/-- Witness for the amended C1: a tool-level configuration gets the full
catalog appended. -/
theorem C1_amended_safety_net_witness :
    fallbackPlan DEFAULT_CONFIG_vendors "news_data" "get_news" none
      = resolvedPrimary DEFAULT_CONFIG_vendors "news_data" "get_news" none
        ++ (catalogVendors "get_news").filter
             (fun v => ! (resolvedPrimary DEFAULT_CONFIG_vendors "news_data"
                 "get_news" none).contains v) :=
  (C1_amended_safety_net DEFAULT_CONFIG_vendors "news_data" "get_news" none implsGetNews
    (by decide)).2 (by decide)

/-- When the market layer produces nothing, the resolver behaves as if no
symbol had been passed. -/
theorem gvl_market_miss (cfg : Config) (category : String) (method symbol : Option String)
    (h : marketLayerHit cfg symbol = false) :
    get_vendor_layered cfg category method symbol
      = get_vendor_layered cfg category method none := by
  cases symbol with
  | none => rfl
  | some s =>
    simp only [marketLayerHit] at h
    by_cases hs : (s != "") = true
    · rw [hs] at h
      simp only [Bool.true_and] at h
      cases hlk : alistLookup cfg.market_vendors (get_market_info s).market with
      | none => simp [get_vendor_layered, hs, hlk]
      | some mc =>
        rw [hlk] at h
        have hp : (mc.primary != "") = false := by
          rcases Bool.or_eq_false_iff.mp h with ⟨h1, _⟩
          exact h1
        have hf : (mc.fallback != "") = false := by
          rcases Bool.or_eq_false_iff.mp h with ⟨_, h2⟩
          exact h2
        simp [get_vendor_layered, hs, hlk, hp, hf]
    · have hs2 : (s != "") = false := Bool.eq_false_iff.mpr hs
      simp [get_vendor_layered, hs2]

/-- With no symbol, a tool layer hit returns the tool configuration. -/
theorem gvl_none_tool_hit (cfg : Config) (category : String) (method : Option String)
    (h : toolLayerHit cfg method = true) :
    ∃ m t, method = some m ∧ alistLookup cfg.tool_vendors m = some t ∧
      get_vendor_layered cfg category method none = (t, CfgLayer.tool) := by
  cases method with
  | none => exact absurd h (by simp [toolLayerHit])
  | some m =>
    simp only [toolLayerHit] at h
    rw [Bool.and_eq_true] at h
    have hm : (m != "") = true := h.1
    have hsome : (alistLookup cfg.tool_vendors m).isSome = true := h.2
    obtain ⟨t, ht⟩ := Option.isSome_iff_exists.mp hsome
    exact ⟨m, t, rfl, ht, by simp [get_vendor_layered, hm, ht]⟩

/-- With no symbol and no tool layer hit, the resolver returns the category
configuration with the "default" sentinel. -/
theorem gvl_none_tool_miss (cfg : Config) (category : String) (method : Option String)
    (h : toolLayerHit cfg method = false) :
    get_vendor_layered cfg category method none
      = ((alistLookup cfg.data_vendors category).getD "default", CfgLayer.category) := by
  cases method with
  | none => rfl
  | some m =>
    simp only [toolLayerHit] at h
    by_cases hm : (m != "") = true
    · rw [hm] at h
      simp only [Bool.true_and] at h
      have hnone : alistLookup cfg.tool_vendors m = none :=
        Option.not_isSome_iff_eq_none.mp (by rw [h]; exact Bool.false_ne_true)
      simp [get_vendor_layered, hm, hnone]
    · have hm2 : (m != "") = false := Bool.eq_false_iff.mpr hm
      simp [get_vendor_layered, hm2]

/-- C3 counterexample: a symbol whose market has a `market_vendors` entry,
yet the resolver returns the tool-layer configuration because the entry is
empty — the market branch is not taken merely because the entry exists. -/
theorem C3_counterexample_empty_market_entry :
    (alistLookup cfgEmptyMarketEntry.market_vendors
        (get_market_info "AAPL").market).isSome = true ∧
    get_vendor cfgEmptyMarketEntry "core_stock_apis" (some "get_stock_data") (some "AAPL")
      = "local" ∧
    ¬ (get_vendor_layered cfgEmptyMarketEntry "core_stock_apis" (some "get_stock_data")
        (some "AAPL")).2 = CfgLayer.market := by decide

/-- C3 (amended): the resolver's three precedence layers, first match wins,
where the market layer matches only when its entry has a nonempty primary or
fallback; a market hit returns primary concatenated with fallback skipping
empty parts, a tool hit returns the tool configuration, and otherwise the
category configuration or the "default" sentinel is returned. -/
theorem C3_resolver_precedence (cfg : Config) (category : String)
    (method symbol : Option String) :
    (marketLayerHit cfg symbol = true →
      ∃ s mc, symbol = some s ∧
        alistLookup cfg.market_vendors (get_market_info s).market = some mc ∧
        get_vendor_layered cfg category method symbol
          = (joinSkipEmpty mc.primary mc.fallback, CfgLayer.market)) ∧
    (marketLayerHit cfg symbol = false → toolLayerHit cfg method = true →
      ∃ m t, method = some m ∧ alistLookup cfg.tool_vendors m = some t ∧
        get_vendor_layered cfg category method symbol = (t, CfgLayer.tool)) ∧
    (marketLayerHit cfg symbol = false → toolLayerHit cfg method = false →
      get_vendor_layered cfg category method symbol
        = ((alistLookup cfg.data_vendors category).getD "default", CfgLayer.category)) := by
  refine ⟨?_, ?_, ?_⟩
  · intro h
    cases symbol with
    | none => exact absurd h (by simp [marketLayerHit])
    | some s =>
      simp only [marketLayerHit] at h
      rw [Bool.and_eq_true] at h
      have hs : (s != "") = true := h.1
      have h2 := h.2
      cases hlk : alistLookup cfg.market_vendors (get_market_info s).market with
      | none => rw [hlk] at h2; exact absurd h2 Bool.false_ne_true
      | some mc =>
        rw [hlk] at h2
        refine ⟨s, mc, rfl, hlk, ?_⟩
        by_cases hp : (mc.primary != "") = true
        · by_cases hf : (mc.fallback != "") = true
          · simp [get_vendor_layered, joinSkipEmpty, hs, hlk, hp, hf]
          · have hf2 : (mc.fallback != "") = false := Bool.eq_false_iff.mpr hf
            simp [get_vendor_layered, joinSkipEmpty, hs, hlk, hp, hf2]
        · have hp2 : (mc.primary != "") = false := Bool.eq_false_iff.mpr hp
          rcases Bool.or_eq_true_iff.mp h2 with hx | hf
          · exact absurd hx (by rw [hp2]; exact Bool.false_ne_true)
          · simp [get_vendor_layered, joinSkipEmpty, hs, hlk, hp2, hf]
  · intro h ht
    obtain ⟨m, t, hmeq, htl, heq⟩ := gvl_none_tool_hit cfg category method ht
    refine ⟨m, t, hmeq, htl, ?_⟩
    rw [gvl_market_miss cfg category method symbol h]
    exact heq
  · intro h ht
    rw [gvl_market_miss cfg category method symbol h]
    exact gvl_none_tool_miss cfg category method ht

/-- Witness for C3: the category fallthrough with the "default" sentinel. -/
theorem C3_resolver_precedence_witness :
    get_vendor_layered DEFAULT_CONFIG_vendors "dividend_data" (some "get_dividend_data") none
      = ("default", CfgLayer.category) :=
  (C3_resolver_precedence DEFAULT_CONFIG_vendors "dividend_data"
    (some "get_dividend_data") none).2.2 (by decide) (by decide)

/-- C6 counterexample: an unknown provider does not return the input
unchanged — the symbol is uppercased (and stripped) first. -/
theorem C6_counterexample_not_identity :
    format_symbol_for_vendor "aapl" "unknown_vendor" none = "AAPL" ∧
    ¬ format_symbol_for_vendor "aapl" "unknown_vendor" none = "aapl" := by decide

/-- Every combination without a formatting rule returns the uppercased,
stripped symbol: the no-rule branches of every vendor group, and the final
fall-through, all return the normalized symbol. -/
theorem format_no_rule (symbol vendor : String) (market : Option String)
    (h : hasFormattingRule vendor (market.getD (identify_market symbol)) = false) :
    format_symbol_for_vendor symbol vendor market = pyStrip (pyUpper symbol) := by
  simp only [hasFormattingRule, Bool.or_eq_false_iff] at h
  obtain ⟨⟨h1, h2⟩, h3⟩ := h
  simp only [format_symbol_for_vendor]
  by_cases hak : (vendor == "akshare") = true
  · rw [hak, Bool.true_and] at h1
    simp only [Bool.or_eq_false_iff] at h1
    obtain ⟨⟨hmA, hmHK⟩, hmUS⟩ := h1
    simp [hak, hmA, hmHK, hmUS]
  · have hakf : (vendor == "akshare") = false := Bool.eq_false_iff.mpr hak
    by_cases hbs : (vendor == "baostock") = true
    · rw [hbs, Bool.true_and] at h2
      simp [hakf, hbs, h2]
    · have hbsf : (vendor == "baostock") = false := Bool.eq_false_iff.mpr hbs
      by_cases hyf : (vendor == "yfinance" || vendor == "alpha_vantage") = true
      · rw [hyf, Bool.true_and] at h3
        simp only [Bool.or_eq_false_iff] at h3
        obtain ⟨⟨hmA, hmHK⟩, hmUS⟩ := h3
        simp [hakf, hbsf, hyf, hmA, hmHK, hmUS]
      · have hyff : (vendor == "yfinance" || vendor == "alpha_vantage") = false :=
          Bool.eq_false_iff.mpr hyf
        simp [hakf, hbsf, hyff]

/-- C6 (amended): the formatter is total, and every provider/market
combination without a specific formatting rule — unknown provider names, the
UNKNOWN market for every provider, and known vendors without a rule for the
market such as baostock with HK or US symbols — returns the uppercased,
whitespace-stripped input, hence the input itself exactly when the input is
already normalized. -/
theorem C6_normalized_identity_fallback (symbol vendor : String) (market : Option String) :
    (hasFormattingRule vendor (market.getD (identify_market symbol)) = false →
      format_symbol_for_vendor symbol vendor market = pyStrip (pyUpper symbol)) ∧
    (knownFormattingVendors.contains vendor = false →
      hasFormattingRule vendor (market.getD (identify_market symbol)) = false) ∧
    (market.getD (identify_market symbol) = "UNKNOWN" →
      hasFormattingRule vendor (market.getD (identify_market symbol)) = false) ∧
    (hasFormattingRule vendor (market.getD (identify_market symbol)) = false →
      pyStrip (pyUpper symbol) = symbol →
      format_symbol_for_vendor symbol vendor market = symbol) := by
  refine ⟨format_no_rule symbol vendor market, ?_, ?_, ?_⟩
  · intro h
    simp only [knownFormattingVendors, List.contains, List.elem] at h
    have h1 : (vendor == "akshare") = false := by
      revert h
      cases vendor == "akshare" <;> simp
    rw [h1] at h
    have h2 : (vendor == "baostock") = false := by
      revert h
      cases vendor == "baostock" <;> simp
    rw [h2] at h
    have h3 : (vendor == "yfinance") = false := by
      revert h
      cases vendor == "yfinance" <;> simp
    rw [h3] at h
    have h4 : (vendor == "alpha_vantage") = false := by
      revert h
      cases vendor == "alpha_vantage" <;> simp
    simp [hasFormattingRule, h1, h2, h3, h4]
  · intro hm
    rw [hm]
    simp [hasFormattingRule]
  · intro h hn
    rw [format_no_rule symbol vendor market h, hn]

/-- Witness for C6 at one of the previously uncovered combinations: baostock
has no rule for an HK symbol, so the stripped, uppercased input comes back. -/
theorem C6_normalized_identity_fallback_witness :
    format_symbol_for_vendor "0700.hk" "baostock" none = pyStrip (pyUpper "0700.hk") :=
  (C6_normalized_identity_fallback "0700.hk" "baostock" none).1 (by decide)

/-- C8 counterexample: the executor does invoke the adapter of a provider
whose supported-market set does not contain the symbol's market —
`is_market_supported` rejects alpha_vantage for an A-share symbol, yet the
attempt is made. -/
theorem C8_counterexample_market_support_not_consulted :
    is_market_supported "600000" "alpha_vantage" = false ∧
    (route_to_vendor cfgAlphaForAShares oracleAllOk "get_stock_data" (some "600000")).trace
      = [("alpha_vantage", "get_alpha_vantage_stock")] ∧
    (route_to_vendor cfgAlphaForAShares oracleAllOk "get_stock_data"
        (some "600000")).attempts = 1 := by decide

/-- C8 (amended): every adapter invocation the executor makes is for a
provider that appears in the fallback plan and is registered for the method
in the catalog; registration, not market support, is the only skip
criterion applied by the executor itself. -/
theorem C8_skip_only_unregistered (cfg : Config) (oracle : Oracle) (method : String)
    (symbol : Option String) (category : String) (impls : List (String × VendorImpl))
    (hcat : get_category_for_method method = some category)
    (himpl : alistLookup VENDOR_METHODS method = some impls) :
    ∀ p ∈ (route_to_vendor cfg oracle method symbol).trace,
      p.1 ∈ fallbackPlan cfg category method symbol ∧
        (alistLookup impls p.1).isSome = true := by
  intro p hp
  obtain ⟨k, _, htr⟩ := route_trace_shape cfg oracle method symbol category impls hcat himpl
  rw [htr] at hp
  rw [List.mem_flatten] at hp
  obtain ⟨bl, hbl, hpbl⟩ := hp
  rw [List.mem_map] at hbl
  obtain ⟨v, hv, hveq⟩ := hbl
  subst hveq
  cases hl : alistLookup impls v with
  | none =>
    rw [vendorBlock, hl] at hpbl
    simp at hpbl
  | some impl =>
    rw [vendorBlock, hl] at hpbl
    rw [List.mem_map] at hpbl
    obtain ⟨n, _, hpe⟩ := hpbl
    subst hpe
    exact ⟨List.take_subset k _ hv, by simp [hl]⟩

/-- Witness for the amended C8. -/
theorem C8_skip_only_unregistered_witness :
    ("alpha_vantage", "get_alpha_vantage_stock").1
        ∈ fallbackPlan cfgAlphaForAShares "core_stock_apis" "get_stock_data" (some "600000") ∧
    (alistLookup implsGetStockData
        ("alpha_vantage", "get_alpha_vantage_stock").1).isSome = true :=
  C8_skip_only_unregistered cfgAlphaForAShares oracleAllOk "get_stock_data" (some "600000")
    "core_stock_apis" implsGetStockData (by decide) (by decide)
    ("alpha_vantage", "get_alpha_vantage_stock") (by decide)

set_option maxRecDepth 8192 in
/-- C5: the indicator gate rejects a textual result exactly when it has no
date lines or fewer than 30 percent valid lines; the 2-of-10 report is
rejected, the 4-of-10 report is accepted, and in a live `get_indicators`
call a rejected report is discarded and the next provider is used. -/
theorem C5_indicator_quality_gate :
    (∀ s, _is_indicator_result_invalid s
        = ((indicator_date_lines s == 0)
           || decide (indicator_valid_lines s * 10 < indicator_date_lines s * 3))) ∧
    indicator_date_lines tenLinesTwoValid = 10 ∧
    indicator_valid_lines tenLinesTwoValid = 2 ∧
    _is_indicator_result_invalid tenLinesTwoValid = true ∧
    indicator_date_lines tenLinesFourValid = 10 ∧
    indicator_valid_lines tenLinesFourValid = 4 ∧
    _is_indicator_result_invalid tenLinesFourValid = false ∧
    (route_to_vendor cfgIndicatorTools oracleIndicators "get_indicators"
        none).successfulVendor = some "akshare" ∧
    (route_to_vendor cfgIndicatorTools oracleIndicators "get_indicators" none).results
      = [Value.vstr tenLinesFourValid] ∧
    ((route_to_vendor cfgIndicatorTools oracleIndicators "get_indicators" none).trace.map
        Prod.fst) = ["yfinance", "akshare"] := by
  refine ⟨?_, by decide, by decide, by decide, by decide, by decide, by decide, by decide,
    by decide, by decide⟩
  intro s
  by_cases hs : s = ""
  · subst hs
    decide
  · have hsb : (s == "") = false := by simp [hs]
    have hd : (((pySplit s '\n').map indicatorLineFlags).filter (fun p => p.1)).length
        = indicator_date_lines s := by
      rw [List.filter_map, List.length_map, indicator_date_lines]
      rfl
    have hv : (((pySplit s '\n').map indicatorLineFlags).filter (fun p => p.2)).length
        = indicator_valid_lines s := by
      rw [List.filter_map, List.length_map, indicator_valid_lines]
      rfl
    simp only [_is_indicator_result_invalid, hsb]
    rw [if_neg (by simp)]
    rw [hd, hv]
    by_cases h0 : (indicator_date_lines s == 0) = true
    · simp [h0]
    · have h0f : (indicator_date_lines s == 0) = false := Bool.eq_false_iff.mpr h0
      simp [h0f]

/-- C4: providers are attempted strictly in plan order (the invocation trace
is the blockwise image of a plan prefix), and in a three-vendor plan where
the first vendor fails with network-classified errors and the second
succeeds past the gate, under the stop condition the successful vendor is
the second and the third is never attempted. -/
theorem C4_plan_order_and_first_success :
    (∀ (cfg : Config) (oracle : Oracle) (method : String) (symbol : Option String)
        (category : String) (impls : List (String × VendorImpl)),
      get_category_for_method method = some category →
      alistLookup VENDOR_METHODS method = some impls →
      ∃ k, k ≤ (fallbackPlan cfg category method symbol).length ∧
        (route_to_vendor cfg oracle method symbol).trace
          = (((fallbackPlan cfg category method symbol).take k).map
              (vendorBlock impls)).flatten) ∧
    (∀ (cfg : Config) (oracle : Oracle) (method : String) (symbol : Option String)
        (category : String) (impls : List (String × VendorImpl))
        (A B C nB : String) (implA : VendorImpl) (v : Value),
      get_category_for_method method = some category →
      alistLookup VENDOR_METHODS method = some impls →
      fallbackPlan cfg category method symbol = [A, B, C] →
      alistLookup impls A = some implA →
      (∀ n ∈ implAdapters implA, ∃ e, oracle A n = AdapterOutcome.raise e ∧
        classify_exception e = FailureClass.network) →
      alistLookup impls B = some (VendorImpl.single nB) →
      oracle B nB = AdapterOutcome.ok v →
      (method == "get_indicators" && _is_indicator_result_invalid (pyStr v)) = false →
      stopAfterFirstSuccess (resolvedPrimary cfg category method symbol) method = true →
      (route_to_vendor cfg oracle method symbol).successfulVendor = some B ∧
      (route_to_vendor cfg oracle method symbol).outcome = Except.ok v ∧
      (route_to_vendor cfg oracle method symbol).trace
        = (implAdapters implA).map (fun n => (A, n)) ++ [(B, nB)] ∧
      (C ≠ A → C ≠ B → ∀ n, ¬ (C, n) ∈ (route_to_vendor cfg oracle method symbol).trace)) := by
  constructor
  · intro cfg oracle method symbol category impls hcat himpl
    exact route_trace_shape cfg oracle method symbol category impls hcat himpl
  · intro cfg oracle method symbol category impls A B C nB implA v
      hcat himpl hplan hA hAfail hB hBok hgate hstop
    have habc := runVendors_abc oracle method impls
      (resolvedPrimary cfg category method symbol) A B C nB implA v hA
      (fun n hn => (hAfail n hn).imp (fun e he => he.1)) hB hBok hgate hstop
    have hroute : route_to_vendor cfg oracle method symbol
        = ⟨Except.ok v, [v], 2, some B,
            (implAdapters implA).map (fun n => (A, n)) ++ [(B, nB)]⟩ := by
      simp only [route_to_vendor, hcat, himpl, hplan, habc]
      simp
    rw [hroute]
    refine ⟨rfl, rfl, rfl, ?_⟩
    intro hCA hCB n hmem
    rcases List.mem_append.mp hmem with hm | hm
    · obtain ⟨n2, _, hpair⟩ := List.mem_map.mp hm
      exact hCA (congrArg Prod.fst hpair).symm
    · exact hCB (congrArg Prod.fst (List.mem_singleton.mp hm))

/-- Witness for C4: alpha_vantage fails with a connection error, yfinance
succeeds, akshare is never reached. -/
theorem C4_plan_order_and_first_success_witness :
    (route_to_vendor cfgThreeMarketVendors oracleAlphaDown "get_stock_data"
        (some "AAPL")).successfulVendor = some "yfinance" :=
  (C4_plan_order_and_first_success.2 cfgThreeMarketVendors oracleAlphaDown
    "get_stock_data" (some "AAPL") "core_stock_apis" implsGetStockData
    "alpha_vantage" "yfinance" "akshare" "get_YFin_data_online"
    (VendorImpl.single "get_alpha_vantage_stock") (Value.vstr "payload")
    (by decide) (by decide) (by decide) (by decide)
    (fun n _ => ⟨PyExn.connectionError, rfl, rfl⟩)
    (by decide) (by decide) (by decide) (by decide)).1

end TAW
